import Mathlib

/-!
Verification development for the TLVArchive downloader (src/main.py).

The definitions below are a shallow embedding of the parts of main.py that
the verified properties are about: the status-ledger row type and the
per-case status evaluation (GushChelka.update_status_csv), the worker
retry decision (DownloadWorker.run), the active-set test-and-set
(GushChelka.is_active), the page/row counting loop (GushChelka.handle_table
and handle_table_row), the ledger mutation/flush discipline, the
reconciler's discrepancy lists (Reporter.verify_ktatrova), the report
aggregation (merge_reports) and the bounded download wait (wait_for_doc).

The ledger stores its counters as strings produced by Python's str() on
ints; since str is injective on naturals and the code only ever compares a
stored counter with the literal "0", counters are modelled as naturals and
the "0" comparison as equality with 0.
-/

/-! ## Constants (main.py lines 59, 76-88) -/

def COMPLETED : String := "completed"

def MISMATCH : String := "mismatch"

def EMPTY : String := ""

def NO_RESULTS : String := "no_results"

/-- FILE_PREFIX in main.py: files whose name carries this marker are the
script's own artifacts and are excluded from directory listings. -/
def logMark : String := "log__"

/-- WAIT_TIME = 120 seconds (main.py line 59), as a rational because the
wait multiplier is a Python float. -/
def WAIT_TIME : ℚ := 120

/-! ## Status ledger row (CsvTikHolder, TIK_COLUMNS; main.py lines 107-117) -/

structure StatusRow where
  ktatrova : String
  ms_gush : String
  ms_chelka : String
  tik_id : String
  status : String
  no_results : String
  docs_in_csv : ℕ
  docs_in_directory : ℕ
  docs_in_web : ℕ
  docs_in_csv_not_in_dir : ℕ
  docs_in_dir_not_in_csv : ℕ
deriving DecidableEq, Repr

/-- The per-job state of a GushChelka object that update_status_csv reads:
its bound case id, its two in-memory counters and the list of document
paths accumulated in res_csv.document. -/
structure JobState where
  tik_id : String
  docs_in_csv : ℕ
  docs_in_web : ℕ
  resDocs : List String
deriving DecidableEq, Repr

/-! ## update_status_csv (main.py lines 919-952) -/

/-- Python `FILE_PREFIX not in x` substring test (main.py lines 922, 1028). -/
def hasLogMark (s : String) : Bool := decide (List.IsInfix logMark.toList s.toList)

/-- `filtered_dir_docs = [x for x in dir_docs if FILE_PREFIX not in x]`. -/
def filterDirDocs (dirDocs : List String) : List String :=
  dirDocs.filter (fun x => !(hasLogMark x))

/-- `docs_in_dir_not_in_csv = [x for x in filtered_dir_docs if x not in self.res_csv.document]`. -/
def docsInDirNotInCsv (resDocs filteredDir : List String) : List String :=
  filteredDir.filter (fun x => decide (x ∉ resDocs))

/-- `docs_in_csv_not_in_dir = [x for x in self.res_csv.document if x not in filtered_dir_docs]`. -/
def docsInCsvNotInDir (resDocs filteredDir : List String) : List String :=
  resDocs.filter (fun x => decide (x ∉ filteredDir))

/-- Body of the `for i in duplicated_tiks` loop of update_status_csv
(main.py lines 932-948), applied to one ledger row.  Rows whose tik_id
differs from the job's are untouched; a matching row receives the job's
counters, has its docs_in_web overwritten only when previously 0, and its
status is set by: completed when
`0 < docs_in_csv == docs_in_web <= len(filtered_dir_docs)` and
`docs_in_csv_not_in_dir` is empty, else mismatch unless already completed. -/
def updateRow (g : JobState) (fd cnd dnc : List String) (row : StatusRow) : StatusRow :=
  if row.tik_id = g.tik_id then
    { row with
      docs_in_web :=
        if row.docs_in_web = 0 ∧ 0 < g.docs_in_web then g.docs_in_web else row.docs_in_web,
      docs_in_csv := g.docs_in_csv,
      docs_in_directory := fd.length,
      docs_in_dir_not_in_csv := dnc.length,
      docs_in_csv_not_in_dir := cnd.length,
      status :=
        if 0 < g.docs_in_csv ∧ g.docs_in_csv = g.docs_in_web ∧
            g.docs_in_web ≤ fd.length ∧ cnd = [] then COMPLETED
        else if row.status ≠ COMPLETED then MISMATCH
        else row.status }
  else row

/-- GushChelka.update_status_csv (main.py lines 919-952): computes the
filtered directory listing and both discrepancy lists, then rewrites every
ledger row whose tik_id equals the job's. -/
def update_status_csv (g : JobState) (dirList : List String)
    (ledger : List StatusRow) : List StatusRow :=
  let fd := filterDirDocs dirList
  let cnd := docsInCsvNotInDir g.resDocs fd
  let dnc := docsInDirNotInCsv g.resDocs fd
  ledger.map (updateRow g fd cnd dnc)

/-! ## Worker retry decision (DownloadWorker.run, main.py lines 375-402) -/

/-- The re-queue condition of DownloadWorker.run line 394:
`if gush_chelka.docs_in_csv < gush_chelka.docs_in_web`. -/
def shouldRequeue (docs_in_csv docs_in_web : ℕ) : Bool :=
  decide (docs_in_csv < docs_in_web)

/-! ## Active-set (GushChelka.is_active, main.py lines 603-611) -/

/-- GushChelka.is_active: under the group lock, if the case id is not in
`status_csv.tik_ids_queued` it is added and False is returned (the caller
claims the case); otherwise True is returned.  Returns the flag together
with the updated active set. -/
def is_active (queued : List String) (tik : String) : Bool × List String :=
  if tik ∈ queued then (true, queued) else (false, tik :: queued)

/-- The active set after a sequence of is_active calls. -/
def activeAfter (queued : List String) (ts : List String) : List String :=
  ts.foldl (fun s t => (is_active s t).2) queued

/-! ## Page/row counting loop (handle_table / handle_table_row,
main.py lines 802-917).

handle_table_row increments docs_in_csv exactly once per table row that
carries a document cell (the td with index PDFBTN, main.py lines 871-884);
a row is modelled by the Boolean "carries a document cell".  handle_table
iterates the rows of the current page, then — comment "Stop endless
recursion", lines 839-844 — stops if docs_in_csv exceeded docs_in_web, and
otherwise recurses into the next page.  The back-button resume path
re-enters the same row stream at start_idx = current_row, so the processed
rows form one stream per page and the model below records every
intermediate value docs_in_csv takes. -/

/-- One table row: docs_in_csv after handle_table_row. -/
def processRow (c : ℕ) (hasDoc : Bool) : ℕ := if hasDoc then c + 1 else c

/-- All values docs_in_csv takes while one page's rows are processed,
starting value included. -/
def pageStates (c : ℕ) (rows : List Bool) : List ℕ := rows.scanl processRow c

/-- docs_in_csv after one page's rows. -/
def pageCount (c : ℕ) (rows : List Bool) : ℕ := rows.foldl processRow c

/-- Number of document-bearing rows in a page. -/
def docCount (rows : List Bool) : ℕ := (rows.filter id).length

/-- Total number of document-bearing rows served across all pages. -/
def totalDocs (pages : List (List Bool)) : ℕ := (pages.map docCount).sum

/-- Every intermediate value of docs_in_csv during handle_table, given the
web-declared count w and the pages the site serves.  After each page the
guard `if self.docs_in_csv > self.docs_in_web: return` stops the paging. -/
def tableStates (w : ℕ) : ℕ → List (List Bool) → List ℕ
  | c, [] => [c]
  | c, p :: rest =>
      if w < pageCount c p then pageStates c p
      else pageStates c p ++ tableStates w (pageCount c p) rest

/-! ## Ledger mutation/flush discipline (main.py lines 796-800, 807-811,
851-854, 887-888, 589-591, 919-952).

Each constructor is one mutation (or flush) point of the shared status_csv
in the source; opFlushes records whether the source calls
`status_csv.to_csv(...)` right at that point. -/

/-- Replace the i-th row, as Python's `self.status_csv.field[i] = v`. -/
def modifyAt (f : StatusRow → StatusRow) : List StatusRow → ℕ → List StatusRow
  | [], _ => []
  | r :: rest, 0 => f r :: rest
  | r :: rest, i + 1 => r :: modifyAt f rest i

inductive LedgerOp where
  /-- add_status_records (main.py 796-800): extend rows, then to_csv. -/
  | addRecords (rs : List StatusRow)
  /-- handle_table docs_in_web write (main.py 807-811): set, then to_csv. -/
  | setWeb (i w : ℕ)
  /-- handle_table page advance (main.py 851-854): to_csv, no mutation. -/
  | pageFlush
  /-- handle_table_row docs_in_csv write (main.py 887-888): set, no to_csv. -/
  | incCsv (i c : ℕ)
  /-- no-results completion (main.py 589-591): set status and no_results,
  no to_csv at this point. -/
  | setNoResults (i : ℕ)
  /-- update_status_csv (main.py 919-952): rewrite matching rows, to_csv. -/
  | evalStatus (g : JobState) (dir : List String)
deriving DecidableEq, Repr

/-- Whether the source flushes the ledger file at this mutation point. -/
def opFlushes : LedgerOp → Bool
  | .addRecords _ => true
  | .setWeb _ _ => true
  | .pageFlush => true
  | .incCsv _ _ => false
  | .setNoResults _ => false
  | .evalStatus _ _ => true

/-- Effect of one operation on the in-memory ledger. -/
def applyOp (ledger : List StatusRow) : LedgerOp → List StatusRow
  | .addRecords rs => ledger ++ rs
  | .setWeb i w => modifyAt (fun r => { r with docs_in_web := w }) ledger i
  | .pageFlush => ledger
  | .incCsv i c => modifyAt (fun r => { r with docs_in_csv := c }) ledger i
  | .setNoResults i =>
      modifyAt (fun r => { r with status := COMPLETED, no_results := NO_RESULTS }) ledger i
  | .evalStatus g dir => update_status_csv g dir ledger

def applyOps (ledger : List StatusRow) (ops : List LedgerOp) : List StatusRow :=
  ops.foldl applyOp ledger

/-- One step over the pair (in-memory ledger, persisted file): the memory
always takes the mutation; the file is rewritten only at flush points. -/
def stepOp (s : List StatusRow × List StatusRow) (op : LedgerOp) :
    List StatusRow × List StatusRow :=
  (applyOp s.1 op, if opFlushes op then applyOp s.1 op else s.2)

def runOps (s : List StatusRow × List StatusRow) (ops : List LedgerOp) :
    List StatusRow × List StatusRow :=
  ops.foldl stepOp s

/-! ## Reconciler discrepancy lists (Reporter.verify_ktatrova,
main.py lines 1057-1062) -/

/-- `[x for x in enumerate(self.docs) if x[1] not in filtered_dir_docs_set]`. -/
def reporterInCsvNotInDir (docs filteredDir : List String) : List (ℕ × String) :=
  docs.enum.filter (fun x => decide (x.2 ∉ filteredDir))

/-- `[x for x in enumerate(filtered_dir_docs) if x[1] not in docs_set]`. -/
def reporterInDirNotInCsv (docs filteredDir : List String) : List (ℕ × String) :=
  filteredDir.enum.filter (fun x => decide (x.2 ∉ docs))

/-- The two discrepancy counts verify_ktatrova reports, from the merged
document table and the raw directory listing (which it first filters by
FILE_PREFIX, main.py lines 1027-1028). -/
def verifyCounts (docs dirListing : List String) : ℕ × ℕ :=
  let fd := filterDirDocs dirListing
  ((reporterInCsvNotInDir docs fd).length, (reporterInDirNotInCsv docs fd).length)

/-! ## Report aggregation (Reporter fields and merge_reports,
main.py lines 324-351, 979-1016) -/

structure Report where
  gush_chelka_received : ℕ
  tiks_received : ℕ
  completed : List String
  mismatches : List String
  waiting : List String
  docs_in_csv_count : ℕ
  docs_in_dir_count : ℕ
  docs_in_web_count : ℕ
  in_csv_not_in_dir : List (ℕ × String)
  in_dir_not_in_csv : List (ℕ × String)
deriving DecidableEq, Repr

/-- `Reporter(None, None, None)`: all counters 0, all lists empty. -/
def emptyReport : Report := ⟨0, 0, [], [], [], 0, 0, 0, [], []⟩

/-- Body of the `for reporter in reporters` loop of merge_reports
(main.py lines 332-345): numeric fields are added, list fields extended. -/
def mergeStep (m r : Report) : Report :=
  { gush_chelka_received := m.gush_chelka_received + r.gush_chelka_received
    tiks_received := m.tiks_received + r.tiks_received
    completed := m.completed ++ r.completed
    mismatches := m.mismatches ++ r.mismatches
    waiting := m.waiting ++ r.waiting
    docs_in_csv_count := m.docs_in_csv_count + r.docs_in_csv_count
    docs_in_dir_count := m.docs_in_dir_count + r.docs_in_dir_count
    docs_in_web_count := m.docs_in_web_count + r.docs_in_web_count
    in_csv_not_in_dir := m.in_csv_not_in_dir ++ r.in_csv_not_in_dir
    in_dir_not_in_csv := m.in_dir_not_in_csv ++ r.in_dir_not_in_csv }

/-- merge_reports (main.py lines 324-351). -/
def merge_reports (rs : List Report) : Report := rs.foldl mergeStep emptyReport

/-! ## Bounded download wait (wait_for_doc, main.py lines 197-208).

The regex float parse of the size string is abstracted as an `Option ℚ`
(the exact decimal the regex extracts, or none when the string carries no
parseable MB value); the filesystem poll `os.path.exists(doc_path)` at the
k-th loop test is abstracted as `appears k`. -/

/-- `doubler = float(r.group(1)) if r else 1; if doubler > 1: doubler = doubler / 10 + 1`. -/
def doubler (parsed : Option ℚ) : ℚ :=
  match parsed with
  | none => 1
  | some v => if 1 < v then v / 10 + 1 else v

/-- The while loop of wait_for_doc: poll number k corresponds to
`timer = 10 * k`; the loop body sleeps 10 seconds and advances the timer
while `timer < limit and not os.path.exists(doc_path)`.  The fuel argument
is the termination measure; `waitFuel` below supplies enough fuel for the
loop to reach its exit condition (proved in the theorems). -/
def waitSteps (appears : ℕ → Bool) (limit : ℚ) : ℕ → ℕ → ℕ
  | 0, k => k
  | fuel + 1, k =>
      if (10 * k : ℚ) < limit ∧ appears k = false then
        waitSteps appears limit fuel (k + 1)
      else k

/-- Enough iterations to cover the limit: floor(limit)/10 + 1. -/
def waitFuel (limit : ℚ) : ℕ := ⌊limit⌋₊ / 10 + 1

/-- wait_for_doc (main.py lines 197-208): number of 10-second sleeps the
call performs; 10 * (this value) is the total time waited. -/
def wait_for_doc (appears : ℕ → Bool) (parsed : Option ℚ) : ℕ :=
  waitSteps appears (WAIT_TIME * doubler parsed) (waitFuel (WAIT_TIME * doubler parsed)) 0

/-! ## Helper lemmas -/

/-- update_status_csv maps updateRow over the ledger, so the i-th output
row is updateRow of the i-th input row. -/
theorem update_status_csv_get (g : JobState) (dirList : List String)
    (ledger : List StatusRow) (i : ℕ) (row : StatusRow)
    (h : ledger[i]? = some row) :
    (update_status_csv g dirList ledger)[i]? =
      some (updateRow g (filterDirDocs dirList)
        (docsInCsvNotInDir g.resDocs (filterDirDocs dirList))
        (docsInDirNotInCsv g.resDocs (filterDirDocs dirList)) row) := by
  simp [update_status_csv, List.getElem?_map, h]

/-- For a chain a < l, the element of l at index i exceeds a + i. -/
theorem chain_head_lt : ∀ (l : List ℕ) (a : ℕ), List.Chain (· < ·) a l →
    ∀ i c, l[i]? = some c → a + i < c := by
  intro l
  induction l with
  | nil => intro a _ i c hc; simp at hc
  | cons b l ih =>
      intro a h i c hc
      rw [List.chain_cons] at h
      cases i with
      | zero =>
          simp only [List.getElem?_cons_zero, Option.some.injEq] at hc
          omega
      | succ n =>
          simp only [List.getElem?_cons_succ] at hc
          have := ih b h.2 n c hc
          omega

/-- In a strictly increasing list of naturals, the element at index i is
at least i. -/
theorem chain_le_get (l : List ℕ) (h : List.Chain' (· < ·) l) :
    ∀ (i c : ℕ), l[i]? = some c → i ≤ c := by
  intro i c hc
  cases l with
  | nil => simp at hc
  | cons a l2 =>
      have hch : List.Chain (· < ·) a l2 := h
      cases i with
      | zero => exact Nat.zero_le _
      | succ n =>
          simp only [List.getElem?_cons_succ] at hc
          have := chain_head_lt l2 a hch n c hc
          omega

/-- is_active never removes anything from the active set. -/
theorem mem_activeAfter_of_mem (x : String) :
    ∀ (ts s : List String), x ∈ s → x ∈ activeAfter s ts := by
  intro ts
  induction ts with
  | nil => intro s hs; exact hs
  | cons t ts ih =>
      intro s hs
      have hstep : x ∈ (is_active s t).2 := by
        unfold is_active
        split
        · exact hs
        · exact List.mem_cons_of_mem _ hs
      exact ih _ hstep

/-- The active set only ever contains the initial members and the case
ids that were passed to is_active. -/
theorem mem_of_mem_activeAfter (x : String) :
    ∀ (ts s : List String), x ∈ activeAfter s ts → x ∈ s ∨ x ∈ ts := by
  intro ts
  induction ts with
  | nil => intro s hs; exact Or.inl hs
  | cons t ts ih =>
      intro s hs
      rcases ih _ hs with hstep | hts
      · by_cases ht : t ∈ s
        · simp only [is_active, if_pos ht] at hstep
          exact Or.inl hstep
        · simp only [is_active, if_neg ht] at hstep
          rcases List.mem_cons.mp hstep with h | h
          · exact Or.inr (h ▸ List.mem_cons_self t ts)
          · exact Or.inl h
      · exact Or.inr (List.mem_cons_of_mem _ hts)

/-- A caller's case id is in the active set right after its is_active call. -/
theorem mem_is_active_self (s : List String) (t : String) :
    t ∈ (is_active s t).2 := by
  unfold is_active
  split
  · assumption
  · exact List.mem_cons_self t s

/-- Filtering an enumerated list by a predicate on the values keeps as
many elements as filtering the plain list. -/
theorem length_filter_enumFrom (p : String → Bool) :
    ∀ (l : List String) (n : ℕ),
      ((List.enumFrom n l).filter (fun x => p x.2)).length = (l.filter p).length := by
  intro l
  induction l with
  | nil => intro n; rfl
  | cons a l ih =>
      intro n
      have hcons : List.enumFrom n (a :: l) = (n, a) :: List.enumFrom (n + 1) l := rfl
      rw [hcons]
      cases hp : p a <;>
        simp [List.filter_cons, hp, ih]

/-- pageCount adds exactly the number of document rows of the page. -/
theorem pageCount_eq : ∀ (rows : List Bool) (c : ℕ),
    pageCount c rows = c + docCount rows := by
  intro rows
  induction rows with
  | nil => intro c; rfl
  | cons r rs ih =>
      intro c
      have h1 : pageCount c (r :: rs) = pageCount (processRow c r) rs := rfl
      rw [h1, ih]
      cases r <;> simp [processRow, docCount, List.filter_cons] <;> omega

/-- Every intermediate docs_in_csv value of one page is bounded by the
start value plus the page's document rows. -/
theorem pageStates_le : ∀ (rows : List Bool) (c : ℕ),
    ∀ v ∈ pageStates c rows, v ≤ c + docCount rows := by
  intro rows
  induction rows with
  | nil =>
      intro c v hv
      simp [pageStates, List.scanl] at hv
      omega
  | cons r rs ih =>
      intro c v hv
      have hcons : pageStates c (r :: rs) = c :: pageStates (processRow c r) rs := rfl
      rw [hcons] at hv
      rcases List.mem_cons.mp hv with h | h
      · subst h; omega
      · have := ih (processRow c r) v h
        cases r <;> simp [processRow, docCount, List.filter_cons] at this ⊢ <;> omega

/-- totalDocs of a cons. -/
theorem totalDocs_cons (p : List Bool) (rest : List (List Bool)) :
    totalDocs (p :: rest) = docCount p + totalDocs rest := by
  simp [totalDocs]

/-- Every intermediate docs_in_csv value of handle_table is bounded by the
start value plus the total number of document rows served. -/
theorem tableStates_le (w : ℕ) : ∀ (pages : List (List Bool)) (c : ℕ),
    ∀ v ∈ tableStates w c pages, v ≤ c + totalDocs pages := by
  intro pages
  induction pages with
  | nil =>
      intro c v hv
      simp [tableStates] at hv
      simp [totalDocs, hv]
  | cons p rest ih =>
      intro c v hv
      rw [totalDocs_cons]
      by_cases hgt : w < pageCount c p
      · rw [tableStates, if_pos hgt] at hv
        have := pageStates_le p c v hv
        omega
      · rw [tableStates, if_neg hgt] at hv
        rcases List.mem_append.mp hv with h | h
        · have := pageStates_le p c v h
          omega
        · have := ih (pageCount c p) v h
          rw [pageCount_eq] at this
          omega

/-- Folding mergeStep accumulates component-wise sums and concatenations. -/
theorem foldl_mergeStep : ∀ (rs : List Report) (m : Report),
    rs.foldl mergeStep m =
      { gush_chelka_received :=
          m.gush_chelka_received + (rs.map (fun r => r.gush_chelka_received)).sum
        tiks_received := m.tiks_received + (rs.map (fun r => r.tiks_received)).sum
        completed := m.completed ++ (rs.map (fun r => r.completed)).flatten
        mismatches := m.mismatches ++ (rs.map (fun r => r.mismatches)).flatten
        waiting := m.waiting ++ (rs.map (fun r => r.waiting)).flatten
        docs_in_csv_count :=
          m.docs_in_csv_count + (rs.map (fun r => r.docs_in_csv_count)).sum
        docs_in_dir_count :=
          m.docs_in_dir_count + (rs.map (fun r => r.docs_in_dir_count)).sum
        docs_in_web_count :=
          m.docs_in_web_count + (rs.map (fun r => r.docs_in_web_count)).sum
        in_csv_not_in_dir :=
          m.in_csv_not_in_dir ++ (rs.map (fun r => r.in_csv_not_in_dir)).flatten
        in_dir_not_in_csv :=
          m.in_dir_not_in_csv ++ (rs.map (fun r => r.in_dir_not_in_csv)).flatten } := by
  intro rs
  induction rs with
  | nil => intro m; simp
  | cons r rs ih =>
      intro m
      rw [List.foldl_cons, ih]
      simp [mergeStep, Nat.add_assoc, List.append_assoc]

/-- With enough fuel the wait loop only returns once the loop condition
fails: either the timer reached the limit or the file appeared. -/
theorem waitSteps_exit (appears : ℕ → Bool) (limit : ℚ) :
    ∀ (fuel k : ℕ), limit ≤ 10 * ((k : ℚ) + fuel) →
      ¬((10 * (waitSteps appears limit fuel k : ℚ)) < limit) ∨
        appears (waitSteps appears limit fuel k) = true := by
  intro fuel
  induction fuel with
  | zero =>
      intro k hk
      left
      rw [waitSteps]
      push_cast at hk ⊢
      linarith
  | succ n ih =>
      intro k hk
      rw [waitSteps]
      by_cases hc : (10 * k : ℚ) < limit ∧ appears k = false
      · rw [if_pos hc]
        apply ih (k + 1)
        push_cast at hk ⊢
        linarith
      · rw [if_neg hc]
        rcases not_and_or.mp hc with h | h
        · left; exact h
        · right; simpa using h

/-- The wait loop either performs no sleep at all, or its last sleep was
taken while the timer was still below the limit. -/
theorem waitSteps_shape (appears : ℕ → Bool) (limit : ℚ) :
    ∀ (fuel k : ℕ), waitSteps appears limit fuel k = k ∨
      ∃ j : ℕ, waitSteps appears limit fuel k = j + 1 ∧ (10 * j : ℚ) < limit := by
  intro fuel
  induction fuel with
  | zero => intro k; left; rfl
  | succ n ih =>
      intro k
      by_cases hc : (10 * k : ℚ) < limit ∧ appears k = false
      · have hred : waitSteps appears limit (n + 1) k = waitSteps appears limit n (k + 1) := by
          rw [waitSteps, if_pos hc]
        rw [hred]
        rcases ih (k + 1) with h | ⟨j, hj, hlt⟩
        · right; exact ⟨k, h, hc.1⟩
        · right; exact ⟨j, hj, hlt⟩
      · left
        rw [waitSteps, if_neg hc]

/-- If the file already exists, the loop body never runs. -/
theorem waitSteps_start (appears : ℕ → Bool) (limit : ℚ) (fuel : ℕ)
    (h : appears 0 = true) : waitSteps appears limit fuel 0 = 0 := by
  cases fuel with
  | zero => rfl
  | succ n =>
      rw [waitSteps, if_neg]
      simp [h]

/-- waitFuel supplies enough 10-second steps to cover the limit. -/
theorem waitFuel_ge (limit : ℚ) : limit ≤ 10 * (waitFuel limit : ℚ) := by
  unfold waitFuel
  have h1 : limit < (⌊limit⌋₊ : ℚ) + 1 := Nat.lt_floor_add_one limit
  have h2 : (⌊limit⌋₊ : ℕ) + 1 ≤ 10 * (⌊limit⌋₊ / 10 + 1) := by omega
  have h3 : ((⌊limit⌋₊ : ℕ) : ℚ) + 1 ≤ 10 * ((⌊limit⌋₊ / 10 + 1 : ℕ) : ℚ) := by
    push_cast
    exact_mod_cast h2
  linarith

/-! ## Claim theorems -/

/-- C1 (corrected): the completion rule of update_status_csv.  A ledger row
with the job's tik_id ends with status completed exactly when the source's
condition `0 < docs_in_csv == docs_in_web <= len(filtered_dir_docs)` with
empty docs_in_csv_not_in_dir holds, or the row was already completed.  A
newly completed row therefore satisfies docs_in_csv ≤ docs_in_directory,
docs_in_csv_not_in_dir = 0 and 0 < docs_in_csv (and docs_in_csv =
docs_in_web when the stored web count was previously 0) — but, contrary to
the original claim, docs_in_directory may strictly exceed the matching
counts and docs_in_dir_not_in_csv may be nonzero. -/
theorem C1_amended_completion_rule (g : JobState) (dirList : List String)
    (ledger : List StatusRow) (i : ℕ) (row rrow : StatusRow)
    (hrow : ledger[i]? = some row)
    (hrrow : (update_status_csv g dirList ledger)[i]? = some rrow)
    (htik : row.tik_id = g.tik_id) :
    (rrow.status = COMPLETED ↔
      ((0 < g.docs_in_csv ∧ g.docs_in_csv = g.docs_in_web ∧
        g.docs_in_web ≤ (filterDirDocs dirList).length ∧
        docsInCsvNotInDir g.resDocs (filterDirDocs dirList) = []) ∨
       row.status = COMPLETED)) ∧
    (rrow.status = COMPLETED → row.status ≠ COMPLETED →
      rrow.docs_in_csv ≤ rrow.docs_in_directory ∧
      rrow.docs_in_csv_not_in_dir = 0 ∧ 0 < rrow.docs_in_csv ∧
      (row.docs_in_web = 0 → rrow.docs_in_csv = rrow.docs_in_web)) := by
  have h2 := update_status_csv_get g dirList ledger i row hrow
  rw [hrrow] at h2
  injection h2 with h2
  subst h2
  unfold updateRow
  rw [if_pos htik]
  by_cases hcond : 0 < g.docs_in_csv ∧ g.docs_in_csv = g.docs_in_web ∧
      g.docs_in_web ≤ (filterDirDocs dirList).length ∧
      docsInCsvNotInDir g.resDocs (filterDirDocs dirList) = []
  · rw [if_pos hcond]
    dsimp only
    constructor
    · exact ⟨fun _ => Or.inl hcond, fun _ => rfl⟩
    · intro _ _
      obtain ⟨hc0, hcw, hwd, hcnd⟩ := hcond
      refine ⟨?_, ?_, hc0, ?_⟩
      · omega
      · rw [hcnd]; rfl
      · intro hw0
        rw [if_pos ⟨hw0, hcw ▸ hc0⟩]
        exact hcw
  · rw [if_neg hcond]
    by_cases hst : row.status = COMPLETED
    · rw [if_neg (by simpa using hst)]
      dsimp only
      constructor
      · exact ⟨fun _ => Or.inr hst, fun _ => hst⟩
      · intro _ hne
        exact absurd hst hne
    · rw [if_pos hst]
      dsimp only
      constructor
      · constructor
        · intro h
          exact absurd h (by decide)
        · intro h
          rcases h with hc | hc
          · exact absurd hc hcond
          · exact absurd hc hst
      · intro hM _
        exact absurd hM (by decide)

/-- C1 counterexample: with one recorded document "a" that is present on
disk next to one unrelated file "b", the evaluation marks the case
completed although docs_in_directory = 2 differs from docs_in_csv =
docs_in_web = 1 and docs_in_dir_not_in_csv = 1 is not 0; the original
claim's completion invariant fails. -/
theorem C1_counterexample :
    (update_status_csv ⟨"T", 1, 1, ["a"]⟩ ["a", "b"]
        [⟨"1", "100", "5", "T", EMPTY, EMPTY, 0, 0, 0, 0, 0⟩])[0]? =
      some ⟨"1", "100", "5", "T", COMPLETED, EMPTY, 1, 2, 1, 0, 1⟩ ∧
    (⟨"1", "100", "5", "T", COMPLETED, EMPTY, 1, 2, 1, 0, 1⟩ : StatusRow).status = COMPLETED ∧
    ¬((⟨"1", "100", "5", "T", COMPLETED, EMPTY, 1, 2, 1, 0, 1⟩ : StatusRow).docs_in_csv =
        (⟨"1", "100", "5", "T", COMPLETED, EMPTY, 1, 2, 1, 0, 1⟩ : StatusRow).docs_in_directory) ∧
    (⟨"1", "100", "5", "T", COMPLETED, EMPTY, 1, 2, 1, 0, 1⟩ : StatusRow).docs_in_dir_not_in_csv ≠ 0 := by
  decide

/-- C1 witness: the amended completion rule evaluated on a concrete case
whose counts satisfy the source's condition exactly. -/
theorem C1_witness :
    ((⟨"1", "100", "5", "T", COMPLETED, EMPTY, 1, 1, 1, 0, 0⟩ : StatusRow).status = COMPLETED ↔
      ((0 < (⟨"T", 1, 1, ["a"]⟩ : JobState).docs_in_csv ∧
        (⟨"T", 1, 1, ["a"]⟩ : JobState).docs_in_csv = (⟨"T", 1, 1, ["a"]⟩ : JobState).docs_in_web ∧
        (⟨"T", 1, 1, ["a"]⟩ : JobState).docs_in_web ≤ (filterDirDocs ["a"]).length ∧
        docsInCsvNotInDir (⟨"T", 1, 1, ["a"]⟩ : JobState).resDocs (filterDirDocs ["a"]) = []) ∨
       (⟨"1", "100", "5", "T", EMPTY, EMPTY, 0, 0, 0, 0, 0⟩ : StatusRow).status = COMPLETED)) ∧
    ((⟨"1", "100", "5", "T", COMPLETED, EMPTY, 1, 1, 1, 0, 0⟩ : StatusRow).status = COMPLETED →
      (⟨"1", "100", "5", "T", EMPTY, EMPTY, 0, 0, 0, 0, 0⟩ : StatusRow).status ≠ COMPLETED →
      (⟨"1", "100", "5", "T", COMPLETED, EMPTY, 1, 1, 1, 0, 0⟩ : StatusRow).docs_in_csv ≤
        (⟨"1", "100", "5", "T", COMPLETED, EMPTY, 1, 1, 1, 0, 0⟩ : StatusRow).docs_in_directory ∧
      (⟨"1", "100", "5", "T", COMPLETED, EMPTY, 1, 1, 1, 0, 0⟩ : StatusRow).docs_in_csv_not_in_dir = 0 ∧
      0 < (⟨"1", "100", "5", "T", COMPLETED, EMPTY, 1, 1, 1, 0, 0⟩ : StatusRow).docs_in_csv ∧
      ((⟨"1", "100", "5", "T", EMPTY, EMPTY, 0, 0, 0, 0, 0⟩ : StatusRow).docs_in_web = 0 →
        (⟨"1", "100", "5", "T", COMPLETED, EMPTY, 1, 1, 1, 0, 0⟩ : StatusRow).docs_in_csv =
          (⟨"1", "100", "5", "T", COMPLETED, EMPTY, 1, 1, 1, 0, 0⟩ : StatusRow).docs_in_web)) :=
  C1_amended_completion_rule ⟨"T", 1, 1, ["a"]⟩ ["a"]
    [⟨"1", "100", "5", "T", EMPTY, EMPTY, 0, 0, 0, 0, 0⟩] 0
    ⟨"1", "100", "5", "T", EMPTY, EMPTY, 0, 0, 0, 0, 0⟩
    ⟨"1", "100", "5", "T", COMPLETED, EMPTY, 1, 1, 1, 0, 0⟩
    (by decide) (by decide) (by decide)

/-- C2 (confirmed): DownloadWorker.run re-queues a faulted job exactly when
docs_in_csv < docs_in_web (shouldRequeue), and the retry count is bounded:
if the docs_in_csv values recorded at the successive faulting attempts of
one job strictly increase (each re-queued attempt resumes at its cursor
and records at least one further document) and every attempt except
possibly the last was re-queued, then there are at most docs_in_web + 1
attempts, i.e. at most docs_in_web re-queues. -/
theorem C2_retry_bound (w : ℕ) (l : List ℕ)
    (hchain : List.Chain' (· < ·) l)
    (hre : ∀ (i c : ℕ), i + 1 < l.length → l[i]? = some c →
      shouldRequeue c w = true) :
    (∀ c, shouldRequeue c w = true ↔ c < w) ∧ l.length ≤ w + 1 := by
  refine ⟨fun c => by simp [shouldRequeue], ?_⟩
  by_contra hlen
  push_neg at hlen
  have h2 : l.length - 2 < l.length := by omega
  rcases hq : l[l.length - 2]? with _ | c
  · rw [List.getElem?_eq_none_iff] at hq
    omega
  · have h1 := hre (l.length - 2) c (by omega) hq
    have h3 := chain_le_get l hchain (l.length - 2) c hq
    simp [shouldRequeue] at h1
    omega

/-- C2 witness: a job with docs_in_web = 1 whose attempts record 0 then 1
documents is re-queued once and tried at most twice. -/
theorem C2_witness :
    (shouldRequeue 0 1 = true ↔ 0 < 1) ∧ ([0, 1] : List ℕ).length ≤ 1 + 1 := by
  have h := C2_retry_bound 1 [0, 1]
    (List.Chain'.cons (by omega) (List.chain'_singleton 1))
    (by
      intro i c hi hc
      have hi0 : i = 0 := by
        simp at hi
        omega
      subst hi0
      simp at hc
      subst hc
      decide)
  exact ⟨h.1 0, h.2⟩

/-- C3 (corrected): the sticky status is completed, not mismatch.  Once a
ledger row's status is completed, every later update_status_csv evaluation
leaves it completed: a matching row either satisfies the completion
condition again (status := completed) or falls to the else-branch, whose
guard `status != completed` fails, leaving the stored status untouched. -/
theorem C3_amended_sticky_completed (g : JobState) (dirList : List String)
    (ledger : List StatusRow) (i : ℕ) (row rrow : StatusRow)
    (hrow : ledger[i]? = some row)
    (hrrow : (update_status_csv g dirList ledger)[i]? = some rrow)
    (hc : row.status = COMPLETED) :
    rrow.status = COMPLETED := by
  have h2 := update_status_csv_get g dirList ledger i row hrow
  rw [hrrow] at h2
  injection h2 with h2
  subst h2
  unfold updateRow
  by_cases htik : row.tik_id = g.tik_id
  · rw [if_pos htik]
    dsimp only
    by_cases hcond : 0 < g.docs_in_csv ∧ g.docs_in_csv = g.docs_in_web ∧
        g.docs_in_web ≤ (filterDirDocs dirList).length ∧
        docsInCsvNotInDir g.resDocs (filterDirDocs dirList) = []
    · rw [if_pos hcond]
    · rw [if_neg hcond, if_neg (by simpa using hc)]
      exact hc
  · rw [if_neg htik]
    exact hc

/-- C3 counterexample: a row whose status is mismatch is changed back to
completed by a later evaluation whose counts satisfy the completion
condition, so mismatch is not sticky. -/
theorem C3_counterexample :
    (update_status_csv ⟨"T", 1, 1, ["a"]⟩ ["a"]
        [⟨"1", "100", "5", "T", MISMATCH, EMPTY, 0, 0, 1, 0, 0⟩])[0]? =
      some ⟨"1", "100", "5", "T", COMPLETED, EMPTY, 1, 1, 1, 0, 0⟩ ∧
    MISMATCH ≠ COMPLETED := by
  decide

/-- C3 witness: a completed row stays completed through an evaluation whose
counts do not satisfy the completion condition. -/
theorem C3_witness :
    (⟨"1", "100", "5", "T", COMPLETED, EMPTY, 0, 0, 0, 0, 0⟩ : StatusRow).status = COMPLETED :=
  C3_amended_sticky_completed ⟨"T", 0, 0, []⟩ []
    [⟨"1", "100", "5", "T", COMPLETED, EMPTY, 0, 0, 0, 0, 0⟩] 0
    ⟨"1", "100", "5", "T", COMPLETED, EMPTY, 0, 0, 0, 0, 0⟩
    ⟨"1", "100", "5", "T", COMPLETED, EMPTY, 0, 0, 0, 0, 0⟩
    (by decide) (by decide) (by decide)

/-- C4 (corrected): the ledger is not flushed after every mutation — the
per-row docs_in_csv write and the no-results status flip do not flush — but
the flush discipline still means the persisted file always equals the
in-memory ledger as of some prefix of the mutation history after which only
non-flushing mutations happened: a restart resumes from the state at the
last flush, losing exactly the unflushed suffix. -/
theorem C4_amended_write_through (m d : List StatusRow) (ops : List LedgerOp) :
    (runOps (m, d) ops).1 = applyOps m ops ∧
    ∃ p q, ops = p ++ q ∧ (∀ op ∈ q, opFlushes op = false) ∧
      ((p = [] ∧ (runOps (m, d) ops).2 = d) ∨
       (p ≠ [] ∧ (runOps (m, d) ops).2 = applyOps m p)) := by
  induction ops generalizing m d with
  | nil => exact ⟨rfl, [], [], rfl, by simp, Or.inl ⟨rfl, rfl⟩⟩
  | cons op rest ih =>
      have hstep : runOps (m, d) (op :: rest) = runOps (stepOp (m, d) op) rest := rfl
      have happ : applyOps m (op :: rest) = applyOps (applyOp m op) rest := rfl
      cases hfl : opFlushes op with
      | true =>
          have hs : stepOp (m, d) op = (applyOp m op, applyOp m op) := by
            simp [stepOp, hfl]
          obtain ⟨h1, p, q, hpq, hq, hdisk⟩ := ih (applyOp m op) (applyOp m op)
          refine ⟨?_, op :: p, q, by simp [hpq], hq, Or.inr ⟨by simp, ?_⟩⟩
          · rw [hstep, hs, happ]
            exact h1
          · rcases hdisk with ⟨hp, hd⟩ | ⟨hp, hd⟩
            · subst hp
              rw [hstep, hs, hd]
              rfl
            · rw [hstep, hs, hd]
              rfl
      | false =>
          have hs : stepOp (m, d) op = (applyOp m op, d) := by
            simp [stepOp, hfl]
          obtain ⟨h1, p, q, hpq, hq, hdisk⟩ := ih (applyOp m op) d
          rcases hdisk with ⟨hp, hd⟩ | ⟨hp, hd⟩
          · subst hp
            refine ⟨?_, [], op :: q, by simpa using hpq, ?_, Or.inl ⟨rfl, ?_⟩⟩
            · rw [hstep, hs, happ]
              exact h1
            · intro x hx
              rcases List.mem_cons.mp hx with h | h
              · rw [h]; exact hfl
              · exact hq x h
            · rw [hstep, hs]
              exact hd
          · refine ⟨?_, op :: p, q, by simp [hpq], hq, Or.inr ⟨by simp, ?_⟩⟩
            · rw [hstep, hs, happ]
              exact h1
            · rw [hstep, hs, hd]
              rfl

/-- C4 counterexample: the docs_in_csv write of handle_table_row
(main.py lines 887-888) mutates the in-memory ledger without a flush, so
right after it the persisted file differs from the in-memory ledger,
refuting write-through persistence after every counter mutation. -/
theorem C4_counterexample :
    (runOps ([⟨"1", "100", "5", "T", EMPTY, EMPTY, 0, 0, 0, 0, 0⟩],
             [⟨"1", "100", "5", "T", EMPTY, EMPTY, 0, 0, 0, 0, 0⟩])
        [LedgerOp.incCsv 0 1]).1 ≠
      (runOps ([⟨"1", "100", "5", "T", EMPTY, EMPTY, 0, 0, 0, 0, 0⟩],
               [⟨"1", "100", "5", "T", EMPTY, EMPTY, 0, 0, 0, 0, 0⟩])
          [LedgerOp.incCsv 0 1]).2 ∧
    (runOps ([⟨"1", "100", "5", "T", EMPTY, EMPTY, 0, 0, 0, 0, 0⟩],
             [⟨"1", "100", "5", "T", EMPTY, EMPTY, 0, 0, 0, 0, 0⟩])
        [LedgerOp.incCsv 0 1]).1 ≠
      [⟨"1", "100", "5", "T", EMPTY, EMPTY, 0, 0, 0, 0, 0⟩] ∧
    opFlushes (LedgerOp.incCsv 0 1) = false := by
  decide

/-- C5 (corrected): docs_in_csv ≤ docs_in_web is not an unconditional
invariant — the loop only detects the overflow after a full page (see the
counterexample) — but it does hold at every point of the page/row loop
whenever the source serves no more document rows than the declared count
docs_in_web. -/
theorem C5_amended_invariant (w : ℕ) (pages : List (List Bool))
    (h : totalDocs pages ≤ w) :
    ∀ v ∈ tableStates w 0 pages, v ≤ w := by
  intro v hv
  have := tableStates_le w pages 0 v hv
  omega

/-- C5 counterexample: with a declared count of 1 and a page carrying two
document rows, docs_in_csv reaches 2 during processing, violating
docs_in_csv ≤ docs_in_web; the guard of handle_table only fires after the
page has been processed. -/
theorem C5_counterexample :
    (2 : ℕ) ∈ tableStates 1 0 [[true, true]] ∧ ¬((2 : ℕ) ≤ 1) := by
  decide

/-- C5 witness: two pages serving 1 + 1 document rows against a declared
count of 2 keep docs_in_csv within the bound at every point. -/
theorem C5_witness : (2 : ℕ) ≤ 2 :=
  C5_amended_invariant 2 [[true], [false, true]] (by decide) 2 (by decide)

/-- A call with a case id already in the active set returns True. -/
theorem is_active_mem (s : List String) (t : String) (h : t ∈ s) :
    (is_active s t).1 = true := by
  simp [is_active, h]

/-- C6 (confirmed): is_active is a test-and-set on the per-group active
set.  For a fixed case id not yet in the set, the first call returns False
(claiming the case) and every subsequent call — after any further calls by
other jobs — returns True, so of two jobs bound to the same case id
exactly the first one to call is_active proceeds. -/
theorem C6_no_duplicate_claim (s0 pre : List String) (t : String)
    (h1 : t ∉ s0) (h2 : t ∉ pre) :
    (is_active (activeAfter s0 pre) t).1 = false ∧
    ∀ mid : List String,
      (is_active (activeAfter (is_active (activeAfter s0 pre) t).2 mid) t).1 = true := by
  have hnot : t ∉ activeAfter s0 pre := by
    intro hm
    rcases mem_of_mem_activeAfter t pre s0 hm with h | h
    · exact h1 h
    · exact h2 h
  constructor
  · simp [is_active, hnot]
  · intro mid
    have hmem : t ∈ activeAfter (is_active (activeAfter s0 pre) t).2 mid :=
      mem_activeAfter_of_mem t mid _ (mem_is_active_self _ t)
    exact is_active_mem _ t hmem

/-- C6 witness: with an empty initial set, after an unrelated claim of "a",
the first call for "b" returns False and a later call for "b" (after an
unrelated claim of "c") returns True. -/
theorem C6_witness :
    (is_active (activeAfter [] ["a"]) "b").1 = false ∧
    (is_active (activeAfter (is_active (activeAfter [] ["a"]) "b").2 ["c"]) "b").1 = true :=
  ⟨(C6_no_duplicate_claim [] ["a"] "b" (by decide) (by decide)).1,
   (C6_no_duplicate_claim [] ["a"] "b" (by decide) (by decide)).2 ["c"]⟩

/-- C7 (confirmed): verify_ktatrova computes the two discrepancy counts as
set differences between the merged document table and the filtered
directory listing — the count of recorded documents missing on disk and of
on-disk files not recorded — and on a table of 5 documents with a
directory holding 4 of them plus 1 unrelated file it reports exactly
(1, 1). -/
theorem C7_reconciliation_counts :
    (∀ docs dirListing : List String,
      verifyCounts docs dirListing =
        ((docs.filter (fun x => decide (x ∉ filterDirDocs dirListing))).length,
         ((filterDirDocs dirListing).filter (fun x => decide (x ∉ docs))).length)) ∧
    verifyCounts ["d1", "d2", "d3", "d4", "d5"] ["d1", "d2", "d3", "d4", "x"] = (1, 1) := by
  constructor
  · intro docs dirListing
    unfold verifyCounts reporterInCsvNotInDir reporterInDirNotInCsv
    dsimp only
    rw [Prod.mk.injEq]
    constructor
    · exact length_filter_enumFrom
        (fun y => decide (y ∉ filterDirDocs dirListing)) docs 0
    · exact length_filter_enumFrom (fun y => decide (y ∉ docs)) (filterDirDocs dirListing) 0
  · decide

/-- C8 (confirmed): merge_reports is a pure component-wise aggregation —
every numeric field of the merged report is the sum of that field over the
inputs and every list field is the concatenation of the inputs' lists —
and merging reports with 3 completed / 1 mismatch and 2 completed /
0 mismatches yields 5 completed and 1 mismatch. -/
theorem C8_merge_reports (rs : List Report) :
    (merge_reports rs).gush_chelka_received =
      (rs.map (fun r => r.gush_chelka_received)).sum ∧
    (merge_reports rs).tiks_received = (rs.map (fun r => r.tiks_received)).sum ∧
    (merge_reports rs).completed = (rs.map (fun r => r.completed)).flatten ∧
    (merge_reports rs).mismatches = (rs.map (fun r => r.mismatches)).flatten ∧
    (merge_reports rs).waiting = (rs.map (fun r => r.waiting)).flatten ∧
    (merge_reports rs).docs_in_csv_count = (rs.map (fun r => r.docs_in_csv_count)).sum ∧
    (merge_reports rs).docs_in_dir_count = (rs.map (fun r => r.docs_in_dir_count)).sum ∧
    (merge_reports rs).docs_in_web_count = (rs.map (fun r => r.docs_in_web_count)).sum ∧
    (merge_reports rs).in_csv_not_in_dir =
      (rs.map (fun r => r.in_csv_not_in_dir)).flatten ∧
    (merge_reports rs).in_dir_not_in_csv =
      (rs.map (fun r => r.in_dir_not_in_csv)).flatten ∧
    (merge_reports [⟨1, 4, ["t1", "t2", "t3"], ["t4"], [], 0, 0, 0, [], []⟩,
                    ⟨1, 2, ["t5", "t6"], [], [], 0, 0, 0, [], []⟩]).completed.length = 5 ∧
    (merge_reports [⟨1, 4, ["t1", "t2", "t3"], ["t4"], [], 0, 0, 0, [], []⟩,
                    ⟨1, 2, ["t5", "t6"], [], [], 0, 0, 0, [], []⟩]).mismatches.length = 1 := by
  have h := foldl_mergeStep rs emptyReport
  refine ⟨?_, ?_, ?_, ?_, ?_, ?_, ?_, ?_, ?_, ?_, by decide, by decide⟩ <;>
    (unfold merge_reports; rw [h]; simp [emptyReport])

/-- C9 (corrected): wait_for_doc always terminates — its loop only returns
once the timer reached WAIT_TIME * doubler or the file appeared; it
returns immediately (0 sleeps) when the file already exists; its total
wait 10 * (number of sleeps) is below WAIT_TIME * doubler + 10 (the bound
rounded up to the next 10-second poll step) — but not always below
WAIT_TIME * doubler itself, see the counterexample. -/
theorem C9_amended_bounded_wait (appears : ℕ → Bool) (parsed : Option ℚ) :
    (¬((10 * (wait_for_doc appears parsed : ℚ)) < WAIT_TIME * doubler parsed) ∨
      appears (wait_for_doc appears parsed) = true) ∧
    (wait_for_doc appears parsed = 0 ∨
      (10 * (wait_for_doc appears parsed : ℚ)) < WAIT_TIME * doubler parsed + 10) ∧
    (appears 0 = true → wait_for_doc appears parsed = 0) := by
  unfold wait_for_doc
  refine ⟨?_, ?_, ?_⟩
  · apply waitSteps_exit
    have := waitFuel_ge (WAIT_TIME * doubler parsed)
    push_cast
    linarith
  · rcases waitSteps_shape appears (WAIT_TIME * doubler parsed)
        (waitFuel (WAIT_TIME * doubler parsed)) 0 with h | ⟨j, hj, hlt⟩
    · left; exact h
    · right
      rw [hj]
      push_cast
      linarith
  · intro h
    exact waitSteps_start appears (WAIT_TIME * doubler parsed) _ h

/-- C9 witness: when the file already exists, the wait returns with zero
sleeps. -/
theorem C9_witness : wait_for_doc (fun _ => true) none = 0 :=
  (C9_amended_bounded_wait (fun _ => true) none).2.2 rfl

/-- C9 counterexample: for a declared size of 2.3MB the factor is
2.3 / 10 + 1 = 1.23, so the claimed bound is WAIT_TIME * 1.23 = 147.6
seconds, but when the file never appears the loop sleeps 15 times for a
total wait of 150 seconds, exceeding the claimed bound. -/
theorem C9_counterexample :
    wait_for_doc (fun _ => false) (some (23 / 10)) = 15 ∧
    WAIT_TIME * doubler (some (23 / 10)) = 738 / 5 ∧
    (738 / 5 : ℚ) < 10 * 15 := by
  have hlim : WAIT_TIME * doubler (some (23 / 10)) = 738 / 5 := by
    norm_num [WAIT_TIME, doubler]
  refine ⟨?_, hlim, by norm_num⟩
  have hexit := waitSteps_exit (fun _ => false) (WAIT_TIME * doubler (some (23 / 10)))
    (waitFuel (WAIT_TIME * doubler (some (23 / 10)))) 0
    (by
      have := waitFuel_ge (WAIT_TIME * doubler (some (23 / 10)))
      push_cast
      linarith)
  have hshape := waitSteps_shape (fun _ => false) (WAIT_TIME * doubler (some (23 / 10)))
    (waitFuel (WAIT_TIME * doubler (some (23 / 10)))) 0
  unfold wait_for_doc
  rcases hexit with hge | habs
  · rcases hshape with h0 | ⟨j, hj, hlt⟩
    · rw [h0] at hge
      rw [hlim] at hge
      norm_num at hge
    · rw [hj] at hge ⊢
      rw [hlim] at hge hlt
      have hjq : (j : ℚ) < 74 / 5 := by linarith
      have hjq2 : (369 / 25 : ℚ) ≤ (j : ℚ) + 1 := by
        push_cast at hge
        linarith
      have hj15 : j < 15 := by
        by_contra hcon
        push_neg at hcon
        have hc2 : (15 : ℚ) ≤ (j : ℚ) := by exact_mod_cast hcon
        linarith
      have hj14 : 14 ≤ j := by
        by_contra hcon
        push_neg at hcon
        have : (j : ℚ) + 1 ≤ 14 := by exact_mod_cast hcon
        linarith
      omega
  · simp at habs

/-- C10 (corrected): update_status_csv writes the same docs_in_csv,
docs_in_directory and both discrepancy counters to every ledger row whose
tik_id equals the job's, and rows whose previous docs_in_web values were
equal, or whose previous statuses agreed on being completed, also end with
equal docs_in_web and equal status — but rows sharing a tik_id do not in
general end with equal counters and status: docs_in_web is only overwritten
when previously 0, and a previously completed row keeps its status while a
non-completed sibling is set to mismatch (see the counterexample). -/
theorem C10_amended_uniform_update (g : JobState) (dirList : List String)
    (ledger : List StatusRow) (i j : ℕ) (ri rj ri2 rj2 : StatusRow)
    (hri : ledger[i]? = some ri) (hrj : ledger[j]? = some rj)
    (hri2 : (update_status_csv g dirList ledger)[i]? = some ri2)
    (hrj2 : (update_status_csv g dirList ledger)[j]? = some rj2)
    (hti : ri.tik_id = g.tik_id) (htj : rj.tik_id = g.tik_id) :
    ri2.docs_in_csv = rj2.docs_in_csv ∧
    ri2.docs_in_directory = rj2.docs_in_directory ∧
    ri2.docs_in_csv_not_in_dir = rj2.docs_in_csv_not_in_dir ∧
    ri2.docs_in_dir_not_in_csv = rj2.docs_in_dir_not_in_csv ∧
    ((ri.status = COMPLETED ↔ rj.status = COMPLETED) → ri2.status = rj2.status) ∧
    (ri.docs_in_web = rj.docs_in_web → ri2.docs_in_web = rj2.docs_in_web) := by
  have h2 := update_status_csv_get g dirList ledger i ri hri
  rw [hri2] at h2
  injection h2 with h2
  subst h2
  have h3 := update_status_csv_get g dirList ledger j rj hrj
  rw [hrj2] at h3
  injection h3 with h3
  subst h3
  unfold updateRow
  rw [if_pos hti, if_pos htj]
  dsimp only
  refine ⟨rfl, rfl, rfl, rfl, ?_, ?_⟩
  · intro hiff
    by_cases hcond : 0 < g.docs_in_csv ∧ g.docs_in_csv = g.docs_in_web ∧
        g.docs_in_web ≤ (filterDirDocs dirList).length ∧
        docsInCsvNotInDir g.resDocs (filterDirDocs dirList) = []
    · rw [if_pos hcond, if_pos hcond]
    · rw [if_neg hcond, if_neg hcond]
      by_cases hsi : ri.status = COMPLETED
      · have hsj : rj.status = COMPLETED := hiff.mp hsi
        rw [if_neg (by simpa using hsi), if_neg (by simpa using hsj), hsi, hsj]
      · have hsj : ¬rj.status = COMPLETED := fun h => hsi (hiff.mpr h)
        rw [if_pos hsi, if_pos hsj]
  · intro hw
    rw [hw]

/-- C10 counterexample: two ledger rows sharing tik_id "T" — one already
completed with a stored web count of 5, one still empty — are updated by an
evaluation with docs_in_web = 6 and failing completion condition; they end
with different statuses (completed vs mismatch) and different docs_in_web
(5 vs 6), refuting the uniform-update claim. -/
theorem C10_counterexample :
    update_status_csv ⟨"T", 0, 6, []⟩ []
        [⟨"1", "100", "5", "T", COMPLETED, EMPTY, 0, 0, 5, 0, 0⟩,
         ⟨"1", "200", "7", "T", EMPTY, EMPTY, 0, 0, 0, 0, 0⟩] =
      [⟨"1", "100", "5", "T", COMPLETED, EMPTY, 0, 0, 5, 0, 0⟩,
       ⟨"1", "200", "7", "T", MISMATCH, EMPTY, 0, 0, 6, 0, 0⟩] ∧
    COMPLETED ≠ MISMATCH ∧ (5 : ℕ) ≠ 6 := by
  decide

/-- C10 witness: two equal-state rows sharing a tik_id end with the same
counters, status and web count. -/
theorem C10_witness :
    (⟨"1", "100", "5", "T", COMPLETED, EMPTY, 1, 1, 1, 0, 0⟩ : StatusRow).docs_in_csv =
      (⟨"1", "200", "7", "T", COMPLETED, EMPTY, 1, 1, 1, 0, 0⟩ : StatusRow).docs_in_csv ∧
    (⟨"1", "100", "5", "T", COMPLETED, EMPTY, 1, 1, 1, 0, 0⟩ : StatusRow).docs_in_directory =
      (⟨"1", "200", "7", "T", COMPLETED, EMPTY, 1, 1, 1, 0, 0⟩ : StatusRow).docs_in_directory ∧
    (⟨"1", "100", "5", "T", COMPLETED, EMPTY, 1, 1, 1, 0, 0⟩ : StatusRow).docs_in_csv_not_in_dir =
      (⟨"1", "200", "7", "T", COMPLETED, EMPTY, 1, 1, 1, 0, 0⟩ : StatusRow).docs_in_csv_not_in_dir ∧
    (⟨"1", "100", "5", "T", COMPLETED, EMPTY, 1, 1, 1, 0, 0⟩ : StatusRow).docs_in_dir_not_in_csv =
      (⟨"1", "200", "7", "T", COMPLETED, EMPTY, 1, 1, 1, 0, 0⟩ : StatusRow).docs_in_dir_not_in_csv ∧
    (((⟨"1", "100", "5", "T", EMPTY, EMPTY, 0, 0, 0, 0, 0⟩ : StatusRow).status = COMPLETED ↔
        (⟨"1", "200", "7", "T", EMPTY, EMPTY, 0, 0, 0, 0, 0⟩ : StatusRow).status = COMPLETED) →
      (⟨"1", "100", "5", "T", COMPLETED, EMPTY, 1, 1, 1, 0, 0⟩ : StatusRow).status =
        (⟨"1", "200", "7", "T", COMPLETED, EMPTY, 1, 1, 1, 0, 0⟩ : StatusRow).status) ∧
    ((⟨"1", "100", "5", "T", EMPTY, EMPTY, 0, 0, 0, 0, 0⟩ : StatusRow).docs_in_web =
        (⟨"1", "200", "7", "T", EMPTY, EMPTY, 0, 0, 0, 0, 0⟩ : StatusRow).docs_in_web →
      (⟨"1", "100", "5", "T", COMPLETED, EMPTY, 1, 1, 1, 0, 0⟩ : StatusRow).docs_in_web =
        (⟨"1", "200", "7", "T", COMPLETED, EMPTY, 1, 1, 1, 0, 0⟩ : StatusRow).docs_in_web) :=
  C10_amended_uniform_update ⟨"T", 1, 1, ["a"]⟩ ["a"]
    [⟨"1", "100", "5", "T", EMPTY, EMPTY, 0, 0, 0, 0, 0⟩,
     ⟨"1", "200", "7", "T", EMPTY, EMPTY, 0, 0, 0, 0, 0⟩] 0 1
    ⟨"1", "100", "5", "T", EMPTY, EMPTY, 0, 0, 0, 0, 0⟩
    ⟨"1", "200", "7", "T", EMPTY, EMPTY, 0, 0, 0, 0, 0⟩
    ⟨"1", "100", "5", "T", COMPLETED, EMPTY, 1, 1, 1, 0, 0⟩
    ⟨"1", "200", "7", "T", COMPLETED, EMPTY, 1, 1, 1, 0, 0⟩
    (by decide) (by decide) (by decide) (by decide) (by decide) (by decide)
